import Mathlib

/-!
Shallow embedding of the nivo network package core
(packages/network/src/hooks.ts): the force model builder
(`computeForces`), the layout engine run performed inside the
`useNetwork` effect, and the styling pipeline (`enhancedNodes`,
`enhancedLinks`).  Parts of the behaviour live inside the d3-force
dependency, which is not part of this repository; those definitions are
modelled from the specification and are marked as such in their doc
comments.  Everything taken from `hooks.ts` follows the source line by
line.
-/

namespace NivoNetwork

abbrev Id := String

abbrev Color := String

/-- Caller-supplied input node: a unique `id` plus arbitrary domain
fields, here represented by a single `payload` field. -/
structure NetworkInputNode where
  id : Id
  payload : Int := 0
deriving DecidableEq

/-- Caller-supplied input link: `source` and `target` node ids.  The
caller may also supply an `id` of its own (`ownId` here); `hooks.ts`
lines 114-117 spread the raw link over a derived id, so an own id
overrides the derived one.  `fields` stands for further named numeric
fields readable through a field path (lodash `get`). -/
structure InputLink where
  source : Id
  target : Id
  ownId : Option Id := none
  fields : List (String × ℚ) := []
deriving DecidableEq

/-- Per-run mutable working copy of a node, augmented with position and
velocity state owned by the layout engine (`nodesCopy` in `hooks.ts`
line 113, after d3 initialisation). -/
structure SimNode where
  id : Id
  payload : Int
  x : ℚ
  y : ℚ
  vx : ℚ
  vy : ℚ
deriving DecidableEq

/-- Entry of `linksCopy` (`hooks.ts` lines 114-117): the raw link with
the derived (or caller-overridden) id attached. -/
structure LinkCopy where
  id : Id
  source : Id
  target : Id
  fields : List (String × ℚ)
deriving DecidableEq

/-- A link whose endpoints were resolved against the run's node set by
the link force initialisation. -/
structure ResolvedLink where
  id : Id
  sourceId : Id
  targetId : Id
  fields : List (String × ℚ)
deriving DecidableEq

/-- Link record stored in the `currentLinks` state (`hooks.ts` lines
129-140): the resolved link plus the previous-frame references. -/
structure RunLink where
  id : Id
  sourceId : Id
  targetId : Id
  fields : List (String × ℚ)
  previousSource : Option SimNode
  previousTarget : Option SimNode
deriving DecidableEq

/-- The `linkDistance` configuration value: a function of the link, a
constant number, a field-path string, or any other value (`other`
stands for a value of a type the resolver does not recognise, for
example a boolean). -/
inductive LinkDistanceInput where
  | fn (f : ResolvedLink → ℚ)
  | num (v : ℚ)
  | str (path : String)
  | other

/-- The `nodeColor` configuration value: a constant color or a function
of the node (`hooks.ts` lines 55-59). -/
inductive NodeColorInput where
  | fn (f : SimNode → Color)
  | const (c : Color)

/-- The `nodeBorderWidth` configuration value, as the accessor pattern
would have it: a constant number or a function of the node. -/
inductive NodeBorderWidthInput where
  | fn (f : SimNode → ℚ)
  | num (v : ℚ)

/-- The `linkThickness` configuration value: a constant number or a
function of the link (`hooks.ts` lines 61-65). -/
inductive LinkThicknessInput where
  | fn (f : RunLink → ℚ)
  | num (v : ℚ)

/-- The full configuration surface of `useNetwork` (`hooks.ts` lines
67-94).  The inherited-color accessors `nodeBorderColor` and
`linkColor` are taken already resolved to functions, as
`useInheritedColor` produces them. -/
structure NetworkConfig where
  center : ℚ × ℚ
  nodes : List NetworkInputNode
  links : List InputLink
  linkDistance : LinkDistanceInput
  repulsivity : ℚ
  distanceMin : ℚ
  distanceMax : ℚ
  iterations : Nat
  nodeColor : NodeColorInput
  nodeBorderWidth : NodeBorderWidthInput
  nodeBorderColor : SimNode → Color
  linkThickness : LinkThicknessInput
  linkColor : RunLink → Color

/-- Error taxonomy of the specification: a configuration error or a
dangling link reference. -/
inductive NetworkError where
  | configurationError (message : String)
  | danglingReference (missing : Id)
deriving DecidableEq

/-- Lookup of a named numeric field on a link record (lodash `get`,
with 0 standing in for the undefined result of a missing path). -/
def lookupField (fields : List (String × ℚ)) (path : String) : ℚ :=
  match fields.find? fun p => p.1 == path with
  | some p => p.2
  | none => 0

/-- Resolution of the `linkDistance` configuration value, following
`hooks.ts` lines 32-39: a function is kept, a number becomes a constant
accessor, a string reads the named field off the link, and anything
else leaves the accessor undefined (`none`). -/
def resolveLinkDistance : LinkDistanceInput → Option (ResolvedLink → ℚ)
  | .fn f => some f
  | .num v => some fun _ => v
  | .str path => some fun l => lookupField l.fields path
  | .other => none

/-- Parameters of the charge (many-body) force as built by
`computeForces` (`hooks.ts` lines 45-48). -/
structure ChargeParams where
  strength : ℚ
  distanceMin : ℚ
  distanceMax : ℚ
deriving DecidableEq

/-- The three force contributors built by `computeForces` (`hooks.ts`
lines 19-53). -/
structure ForceConfig where
  getLinkDistance : Option (ResolvedLink → ℚ)
  charge : ChargeParams
  center : ℚ × ℚ

/-- Embedding of `computeForces` (`hooks.ts` lines 19-53): resolves the
link-distance accessor, builds the charge force with strength equal to
the negated repulsivity and the two distance clamps, and the centering
force at the configured center. -/
def computeForces (cfg : NetworkConfig) : ForceConfig :=
  { getLinkDistance := resolveLinkDistance cfg.linkDistance
    charge :=
      { strength := -cfg.repulsivity
        distanceMin := cfg.distanceMin
        distanceMax := cfg.distanceMax }
    center := cfg.center }

/-- Modelled from the spec: deterministic initial placement of a node
from its index (d3-force assigns deterministic initial coordinates to
nodes that carry none; the exact layout is an implementation choice as
long as it is deterministic). -/
def initSimNode (i : Nat) (n : NetworkInputNode) : SimNode :=
  { id := n.id, payload := n.payload, x := (i : ℚ), y := (2 * i : ℚ),
    vx := 0, vy := 0 }

/-- The per-run working copy of the node set (`nodesCopy`, `hooks.ts`
line 113) with initial positions assigned. -/
def initNodes (cfg : NetworkConfig) : List SimNode :=
  cfg.nodes.enum.map fun p => initSimNode p.1 p.2

/-- Embedding of the `linksCopy` construction (`hooks.ts` lines
114-117): the derived id `source.target` is spread first, so a
caller-supplied own id overrides it. -/
def copyLink (l : InputLink) : LinkCopy :=
  { id :=
      match l.ownId with
      | some i => i
      | none => l.source ++ "." ++ l.target
    source := l.source
    target := l.target
    fields := l.fields }

/-- Lookup of a node by id in a node list. -/
def nodeById (ns : List SimNode) (i : Id) : Option SimNode :=
  ns.find? fun n => n.id == i

/-- Modelled from the spec: endpoint resolution performed by the link
force initialisation inside d3-force (not under src/).  A link whose
source or target id is absent from the node set is a
`danglingReference` failure; the run must not proceed against a
malformed graph. -/
def resolveLink (ns : List SimNode) (l : LinkCopy) :
    Except NetworkError ResolvedLink :=
  match nodeById ns l.source with
  | none => .error (.danglingReference l.source)
  | some s =>
    match nodeById ns l.target with
    | none => .error (.danglingReference l.target)
    | some t =>
      .ok { id := l.id, sourceId := s.id, targetId := t.id, fields := l.fields }

/-- Resolution of the whole link list; the first dangling reference
aborts the run. -/
def resolveLinks (ns : List SimNode) : List LinkCopy →
    Except NetworkError (List ResolvedLink)
  | [] => .ok []
  | l :: ls =>
    match resolveLink ns l with
    | .error e => .error e
    | .ok r =>
      match resolveLinks ns ls with
      | .error e => .error e
      | .ok rs => .ok (r :: rs)

/-- Modelled from the spec: the squared distance actually used by one
pairwise charge contribution.  Pairs farther apart than `distanceMax`
contribute nothing; pairs closer than `distanceMin` are treated as
being at `distanceMin`, so they receive the force's maximum. -/
def chargeUsedDist2 (p : ChargeParams) (d2 : ℚ) : Option ℚ :=
  if p.distanceMax * p.distanceMax < d2 then none
  else some (max d2 (p.distanceMin * p.distanceMin))

/-- Modelled from the spec: velocity contribution of `other` on `self`
from the charge force, proportional to the (negative) strength and
inversely proportional to the clamped squared distance. -/
def chargeOn (p : ChargeParams) (alpha : ℚ) (self other : SimNode) : ℚ × ℚ :=
  let dx := other.x - self.x
  let dy := other.y - self.y
  match chargeUsedDist2 p (dx * dx + dy * dy) with
  | none => (0, 0)
  | some l => (dx * p.strength * alpha / l, dy * p.strength * alpha / l)

/-- Modelled from the spec: apply the charge force to every node,
summing the contributions of every other node (the self term vanishes
because its displacement is zero). -/
def applyCharge (p : ChargeParams) (alpha : ℚ) (ns : List SimNode) :
    List SimNode :=
  ns.map fun n =>
    let f := ns.foldl
      (fun acc m =>
        let c := chargeOn p alpha n m
        (acc.1 + c.1, acc.2 + c.2))
      ((0 : ℚ), (0 : ℚ))
    { n with vx := n.vx + f.1, vy := n.vy + f.2 }

/-- The distance accessor handed to the link force; an undefined
accessor (`none`) is coerced to a junk constant, standing in for the
NaN that d3 produces by coercing `undefined`. -/
def coerceDist (o : Option (ResolvedLink → ℚ)) : ResolvedLink → ℚ :=
  fun l =>
    match o with
    | some f => f l
    | none => 0

/-- Add a velocity increment to the node carrying the given id. -/
def adjustVel (i : Id) (dvx dvy : ℚ) (ns : List SimNode) : List SimNode :=
  ns.map fun n =>
    if n.id = i then { n with vx := n.vx + dvx, vy := n.vy + dvy } else n

/-- Modelled from the spec: the spring-like link force pulls the two
endpoints of a link toward the resolved target distance, proportionally
to the discrepancy between current and target distance. -/
def applyLinkForce (dist : ResolvedLink → ℚ) (alpha : ℚ)
    (ns : List SimNode) (l : ResolvedLink) : List SimNode :=
  match nodeById ns l.sourceId, nodeById ns l.targetId with
  | some s, some t =>
    let dx := t.x - s.x
    let dy := t.y - s.y
    let d2 := dx * dx + dy * dy
    let target := dist l
    let push := alpha * (d2 - target * target) / (1 + d2)
    adjustVel l.targetId (-(dx * push)) (-(dy * push))
      (adjustVel l.sourceId (dx * push) (dy * push) ns)
  | _, _ => ns

/-- Apply the link force for every link in order. -/
def applyLinks (dist : ResolvedLink → ℚ) (alpha : ℚ)
    (links : List ResolvedLink) (ns : List SimNode) : List SimNode :=
  links.foldl (applyLinkForce dist alpha) ns

/-- Modelled from the spec: the center force shifts every node by the
offset between the centroid of all nodes and the configured center
point. -/
def applyCenter (c : ℚ × ℚ) (ns : List SimNode) : List SimNode :=
  if ns.isEmpty then ns
  else
    let k : ℚ := (ns.length : ℚ)
    let sx := (ns.map fun n => n.x).sum / k
    let sy := (ns.map fun n => n.y).sum / k
    ns.map fun n => { n with x := n.x - (sx - c.1), y := n.y - (sy - c.2) }

/-- Modelled from the spec: velocity integration with damping; the
damped velocity is added to the position. -/
def integrate (ns : List SimNode) : List SimNode :=
  ns.map fun n =>
    let vx2 := n.vx * (3 / 5)
    let vy2 := n.vy * (3 / 5)
    { n with x := n.x + vx2, y := n.y + vy2, vx := vx2, vy := vy2 }

/-- The force model the engine runs with: charge parameters, resolved
link-distance accessor, center point and the resolved link list. -/
structure ForceModel where
  charge : ChargeParams
  dist : ResolvedLink → ℚ
  center : ℚ × ℚ
  links : List ResolvedLink

/-- Build the force model the engine runs with from the configuration
and the resolved links. -/
def mkForceModel (cfg : NetworkConfig) (resolved : List ResolvedLink) :
    ForceModel :=
  { charge := (computeForces cfg).charge
    dist := coerceDist (computeForces cfg).getLinkDistance
    center := (computeForces cfg).center
    links := resolved }

/-- State of one simulation run: the cooling factor and the working
node set. -/
structure SimState where
  alpha : ℚ
  nodes : List SimNode
deriving DecidableEq

/-- Modelled from the spec: one discrete relaxation step applies the
charge force for every node pair (subject to the clamps), the link
force for every link, the center force, then integrates velocity into
position; the cooling factor decays deterministically. -/
def tick (fm : ForceModel) (s : SimState) : SimState :=
  let a := s.alpha
  let ns1 := applyCharge fm.charge a s.nodes
  let ns2 := applyLinks fm.dist a fm.links ns1
  let ns3 := applyCenter fm.center ns2
  { alpha := a * (49 / 50), nodes := integrate ns3 }

/-- Run the given number of relaxation steps (`simulation.tick(iterations)`,
`hooks.ts` line 125). -/
def simulateN (fm : ForceModel) : Nat → SimState → SimState
  | 0, s => s
  | n + 1, s => simulateN fm n (tick fm s)

/-- The initial simulation state of a run. -/
def initSimState (cfg : NetworkConfig) : SimState :=
  { alpha := 1, nodes := initNodes cfg }

/-- The state held by the hook (`hooks.ts` lines 98-99): both pieces
start as the `null` sentinel, not as empty arrays. -/
structure HookState where
  currentNodes : Option (List SimNode)
  currentLinks : Option (List RunLink)
deriving DecidableEq

/-- The hook state before the first effect has run: `useState(null)`
for both nodes and links. -/
def initHookState : HookState :=
  { currentNodes := none, currentLinks := none }

/-- Previous-frame lookup (`hooks.ts` lines 131-136): `none` on the
first run, otherwise the first node of the prior run whose id matches. -/
def prevLookup (prev : Option (List SimNode)) (i : Id) : Option SimNode :=
  match prev with
  | none => none
  | some ns => ns.find? fun n => n.id == i

/-- Attach the previous-frame references of the prior run's node set to
a resolved link (`hooks.ts` lines 129-140). -/
def attachPrevious (prev : Option (List SimNode)) (r : ResolvedLink) : RunLink :=
  { id := r.id
    sourceId := r.sourceId
    targetId := r.targetId
    fields := r.fields
    previousSource := prevLookup prev r.sourceId
    previousTarget := prevLookup prev r.targetId }

/-- The hook state written at the end of a successful run
(`setCurrentNodes` / `setCurrentLinks`, `hooks.ts` lines 128-140). -/
def finishState (prev : HookState) (resolved : List ResolvedLink)
    (final : SimState) : HookState :=
  { currentNodes := some final.nodes
    currentLinks := some (resolved.map (attachPrevious prev.currentNodes)) }

/-- One run of the `useNetwork` effect (`hooks.ts` lines 104-146):
build the forces, copy nodes and links, resolve the link endpoints
(failing the whole run on a dangling reference), run the fixed number
of relaxation steps, and store the results together with the
previous-frame references. -/
def runEffect (cfg : NetworkConfig) (st : HookState) :
    Except NetworkError HookState :=
  match resolveLinks (initNodes cfg) (cfg.links.map copyLink) with
  | .error e => .error e
  | .ok resolved =>
    .ok (finishState st resolved
      (simulateN (mkForceModel cfg resolved) cfg.iterations (initSimState cfg)))

/-- Final computed node handed to the rendering layer (`hooks.ts`
lines 168-175): the simulation node spread together with the style
fields.  `borderWidth` holds the raw configuration value, exactly as
line 172 assigns it. -/
structure NetworkComputedNode where
  id : Id
  payload : Int
  x : ℚ
  y : ℚ
  vx : ℚ
  vy : ℚ
  color : Color
  borderWidth : NodeBorderWidthInput
  borderColor : Color

/-- Final computed link handed to the rendering layer (`hooks.ts`
lines 181-187): the run link spread together with thickness and
color. -/
structure ComputedLink where
  id : Id
  sourceId : Id
  targetId : Id
  fields : List (String × ℚ)
  previousSource : Option SimNode
  previousTarget : Option SimNode
  thickness : ℚ
  color : Color

/-- Embedding of `useNodeColor` (`hooks.ts` lines 55-59): a function is
kept as is, anything else becomes a constant-returning function. -/
def resolveNodeColor : NodeColorInput → SimNode → Color
  | .fn f, n => f n
  | .const c, _ => c

/-- Embedding of `useLinkThickness` (`hooks.ts` lines 61-65): a
function is kept as is, anything else becomes a constant-returning
function. -/
def resolveLinkThickness : LinkThicknessInput → RunLink → ℚ
  | .fn f, l => f l
  | .num v, _ => v

/-- Styling of one node (`hooks.ts` lines 168-175): a new record
copying the simulation node's fields and layering the style fields on
top.  Note that `borderWidth` receives the raw `nodeBorderWidth`
configuration value without applying it. -/
def styleNode (color : NodeColorInput) (bw : NodeBorderWidthInput)
    (bc : SimNode → Color) (n : SimNode) : NetworkComputedNode :=
  { id := n.id
    payload := n.payload
    x := n.x
    y := n.y
    vx := n.vx
    vy := n.vy
    color := resolveNodeColor color n
    borderWidth := bw
    borderColor := bc n }

/-- The styling pipeline over the node set (`enhancedNodes`). -/
def styleNodes (color : NodeColorInput) (bw : NodeBorderWidthInput)
    (bc : SimNode → Color) (ns : List SimNode) : List NetworkComputedNode :=
  ns.map (styleNode color bw bc)

/-- Styling of one link (`hooks.ts` lines 181-187): a new record
copying the run link's fields and layering thickness and color on
top. -/
def styleLink (th : LinkThicknessInput) (lc : RunLink → Color)
    (l : RunLink) : ComputedLink :=
  { id := l.id
    sourceId := l.sourceId
    targetId := l.targetId
    fields := l.fields
    previousSource := l.previousSource
    previousTarget := l.previousTarget
    thickness := resolveLinkThickness th l
    color := lc l }

/-- The styling pipeline over the link set (`enhancedLinks`). -/
def styleLinks (th : LinkThicknessInput) (lc : RunLink → Color)
    (ls : List RunLink) : List ComputedLink :=
  ls.map (styleLink th lc)

/-- Projection of a computed node back onto the simulation node it was
built from. -/
def toSimNode (n : NetworkComputedNode) : SimNode :=
  { id := n.id, payload := n.payload, x := n.x, y := n.y,
    vx := n.vx, vy := n.vy }

/-- Projection of a computed link back onto the run link it was built
from. -/
def toRunLink (l : ComputedLink) : RunLink :=
  { id := l.id, sourceId := l.sourceId, targetId := l.targetId,
    fields := l.fields, previousSource := l.previousSource,
    previousTarget := l.previousTarget }

/-- The pair the hook returns (`hooks.ts` lines 165-190): the styled
nodes and links, or the `null` sentinel while the state still holds
it. -/
def render (cfg : NetworkConfig) (st : HookState) :
    Option (List NetworkComputedNode) × Option (List ComputedLink) :=
  (st.currentNodes.map
      (styleNodes cfg.nodeColor cfg.nodeBorderWidth cfg.nodeBorderColor),
    st.currentLinks.map (styleLinks cfg.linkThickness cfg.linkColor))

/-- Step relation of the layout engine: `Steps fm n s t` holds when `t`
is reachable from `s` by exactly `n` relaxation steps. -/
inductive Steps (fm : ForceModel) : Nat → SimState → SimState → Prop
  | zero (s : SimState) : Steps fm 0 s s
  | succ (n : Nat) (s t : SimState) :
      Steps fm n (tick fm s) t → Steps fm (n + 1) s t

/-- Relational description of one complete engine run: link resolution
succeeded and the simulation performed the configured number of steps
from the initial state. -/
inductive EngineRun (cfg : NetworkConfig) (prev : HookState) :
    HookState → Prop
  | run (resolved : List ResolvedLink) (final : SimState)
      (hres : resolveLinks (initNodes cfg) (cfg.links.map copyLink) =
        Except.ok resolved)
      (hsteps : Steps (mkForceModel cfg resolved) cfg.iterations
        (initSimState cfg) final) :
      EngineRun cfg prev (finishState prev resolved final)

/-- Decision helper: the run failed with a dangling-reference error. -/
def isDanglingFailure : Except NetworkError HookState → Bool
  | .error (.danglingReference _) => true
  | _ => false

/-- Decision helper: the run completed and produced a new state. -/
def runIsOk (cfg : NetworkConfig) (st : HookState) : Bool :=
  match runEffect cfg st with
  | .ok _ => true
  | .error _ => false

/-- Every link's endpoints are present in the run's node set. -/
def allLinksResolvable (cfg : NetworkConfig) : Bool :=
  (cfg.links.map copyLink).all fun l =>
    (nodeById (initNodes cfg) l.source).isSome &&
      (nodeById (initNodes cfg) l.target).isSome

/-- A concrete color used by the fixtures below. -/
def colorA : Color := "black"

/-- A second concrete color used by the fixtures below. -/
def colorB : Color := "gray"

/-- Base fixture configuration: two nodes `a`, `b` and one link between
them. -/
def baseConfig : NetworkConfig :=
  { center := (0, 0)
    nodes := [{ id := "a" }, { id := "b" }]
    links := [{ source := "a", target := "b" }]
    linkDistance := .num 50
    repulsivity := 0
    distanceMin := 1
    distanceMax := 10
    iterations := 0
    nodeColor := .const colorA
    nodeBorderWidth := .num 1
    nodeBorderColor := fun _ => colorB
    linkThickness := .num 1
    linkColor := fun _ => colorB }

/-- Fixture for the dangling-reference scenario: the link targets the
absent node `z`. -/
def cfgC1 : NetworkConfig :=
  { baseConfig with links := [{ source := "a", target := "z" }] }

/-- The dangling link of `cfgC1`. -/
def linkC1 : InputLink := { source := "a", target := "z" }

/-- Fixture with an unsupported `linkDistance` value and one iteration. -/
def cfgC2 : NetworkConfig :=
  { baseConfig with linkDistance := .other, iterations := 1 }

/-- The state produced by running the effect on `cfgC2`. -/
def runC2 : HookState :=
  match runEffect cfgC2 initHookState with
  | .ok s => s
  | .error _ => initHookState

/-- Fixture for the determinism witness. -/
def cfgC3 : NetworkConfig := { baseConfig with iterations := 2 }

/-- The resolved links of `cfgC3`. -/
def resolvedC3 : List ResolvedLink :=
  match resolveLinks (initNodes cfgC3) (cfgC3.links.map copyLink) with
  | .ok r => r
  | .error _ => []

/-- A prior-run node for the previous-frame-reference witness. -/
def prevNodeA : SimNode :=
  { id := "a", payload := 0, x := 5, y := 5, vx := 0, vy := 0 }

/-- A hook state left by a prior run holding only node `a`. -/
def stC5 : HookState :=
  { currentNodes := some [prevNodeA], currentLinks := some [] }

/-- The state produced by running the effect on `baseConfig` from
`stC5`. -/
def runC5 : HookState :=
  match runEffect baseConfig stC5 with
  | .ok s => s
  | .error _ => initHookState

/-- A fallback run link used only to take apart `runC5`. -/
def dummyRunLink : RunLink :=
  { id := "", sourceId := "", targetId := "", fields := [],
    previousSource := none, previousTarget := none }

/-- The link list of `runC5`. -/
def lsC5 : List RunLink := runC5.currentLinks.getD []

/-- The single link of `runC5`. -/
def lC5 : RunLink := lsC5.getD 0 dummyRunLink

/-- A concrete simulation node for the border-width counterexample. -/
def nodeA : SimNode :=
  { id := "a", payload := 0, x := 0, y := 0, vx := 0, vy := 0 }

/-- A function-valued `nodeBorderWidth` configuration value. -/
def bwFn : NodeBorderWidthInput := .fn fun _ => 3

/-- Fixture for the charge-clamp witness: nonzero repulsivity. -/
def cfgC9 : NetworkConfig := { baseConfig with repulsivity := 2 }

/-! Helper lemmas shared by the claim theorems. -/

theorem steps_eq_simulateN {fm : ForceModel} {n : Nat} {s t : SimState}
    (h : Steps fm n s t) : t = simulateN fm n s := by
  induction h with
  | zero s => rfl
  | succ n s t h ih => exact ih

theorem steps_simulateN (fm : ForceModel) (n : Nat) (s : SimState) :
    Steps fm n s (simulateN fm n s) := by
  induction n generalizing s with
  | zero => exact Steps.zero s
  | succ n ih => exact Steps.succ n s _ (ih (tick fm s))

theorem resolveLink_error_dangling (ns : List SimNode) (l : LinkCopy)
    (e : NetworkError) (h : resolveLink ns l = .error e) :
    ∃ i, e = NetworkError.danglingReference i := by
  unfold resolveLink at h
  split at h
  · injection h with h2
    exact ⟨l.source, h2.symm⟩
  · split at h
    · injection h with h2
      exact ⟨l.target, h2.symm⟩
    · exact Except.noConfusion h

theorem resolveLink_fails_of_missing (ns : List SimNode) (l : LinkCopy)
    (h : nodeById ns l.source = none ∨ nodeById ns l.target = none) :
    ∃ i, resolveLink ns l = .error (NetworkError.danglingReference i) := by
  unfold resolveLink
  rcases h with hs | ht
  · rw [hs]
    exact ⟨l.source, rfl⟩
  · cases hs : nodeById ns l.source with
    | none => exact ⟨l.source, rfl⟩
    | some s =>
      rw [ht]
      exact ⟨l.target, rfl⟩

theorem resolveLinks_fails_of_mem (ns : List SimNode) (ls : List LinkCopy)
    (l : LinkCopy) (hl : l ∈ ls)
    (hfail : ∃ i, resolveLink ns l = .error (NetworkError.danglingReference i)) :
    ∃ i, resolveLinks ns ls = .error (NetworkError.danglingReference i) := by
  induction ls with
  | nil => cases hl
  | cons a as ih =>
    cases hl with
    | head =>
      obtain ⟨i, hi⟩ := hfail
      exact ⟨i, by unfold resolveLinks; rw [hi]⟩
    | tail _ hmem =>
      cases ha : resolveLink ns a with
      | error e =>
        obtain ⟨i, hie⟩ := resolveLink_error_dangling ns a e ha
        exact ⟨i, by unfold resolveLinks; rw [ha, hie]⟩
      | ok r =>
        obtain ⟨i, hi⟩ := ih hmem
        exact ⟨i, by unfold resolveLinks; rw [ha, hi]⟩

theorem resolveLinks_ok_of_all (ns : List SimNode) (ls : List LinkCopy)
    (h : (ls.all fun l =>
      (nodeById ns l.source).isSome && (nodeById ns l.target).isSome) = true) :
    ∃ rs, resolveLinks ns ls = Except.ok rs := by
  induction ls with
  | nil => exact ⟨[], rfl⟩
  | cons a as ih =>
    rw [List.all_cons, Bool.and_eq_true] at h
    obtain ⟨ha, has⟩ := h
    rw [Bool.and_eq_true] at ha
    obtain ⟨hs, ht⟩ := ha
    obtain ⟨s, hs2⟩ := Option.isSome_iff_exists.mp hs
    obtain ⟨t, ht2⟩ := Option.isSome_iff_exists.mp ht
    obtain ⟨rs, hrs⟩ := ih has
    exact ⟨_, by unfold resolveLinks resolveLink; rw [hs2, ht2, hrs]⟩

/-- Claim C1: whenever some link's source or target id is absent from
the node set, the run fails with a dangling-reference error and no new
hook state (hence no positions) is produced. -/
theorem dangling_link_fails_run (cfg : NetworkConfig) (st : HookState)
    (l : InputLink) (hl : l ∈ cfg.links)
    (hmiss : nodeById (initNodes cfg) l.source = none ∨
      nodeById (initNodes cfg) l.target = none) :
    isDanglingFailure (runEffect cfg st) = true ∧
      (runEffect cfg st).toOption = none := by
  have hmem : copyLink l ∈ cfg.links.map copyLink :=
    List.mem_map_of_mem copyLink hl
  have hfail := resolveLink_fails_of_missing (initNodes cfg) (copyLink l) hmiss
  obtain ⟨i, hi⟩ := resolveLinks_fails_of_mem (initNodes cfg)
    (cfg.links.map copyLink) (copyLink l) hmem hfail
  constructor
  · simp [runEffect, isDanglingFailure, hi]
  · simp [runEffect, hi, Except.toOption]

/-- Witness for claim C1: the scenario of the spec, a link `a.z` whose
target `z` is absent. -/
theorem dangling_link_fails_run_witness :
    isDanglingFailure (runEffect cfgC1 initHookState) = true ∧
      (runEffect cfgC1 initHookState).toOption = none :=
  dangling_link_fails_run cfgC1 initHookState linkC1 (by decide) (by decide)

/-- Claim C2, counterexample to the claim as stated: with the
unsupported `linkDistance` value the configuration is not rejected, no
error of any kind is signalled, and the simulation runs to completion
and produces a new state. -/
theorem unsupported_link_distance_runs :
    resolveLinkDistance cfgC2.linkDistance = none ∧
      runEffect cfgC2 initHookState = Except.ok runC2 :=
  ⟨rfl, rfl⟩

/-- Claim C2, amended: an unsupported `linkDistance` value leaves the
resolved accessor undefined, and the run is not rejected: whenever the
links resolve, the run completes normally, with no configuration
error. -/
theorem unsupported_link_distance_not_rejected (cfg : NetworkConfig)
    (st : HookState) (hld : cfg.linkDistance = LinkDistanceInput.other)
    (hres : allLinksResolvable cfg = true) :
    resolveLinkDistance cfg.linkDistance = none ∧ runIsOk cfg st = true := by
  constructor
  · rw [hld]
    rfl
  · obtain ⟨rs, hrs⟩ := resolveLinks_ok_of_all (initNodes cfg)
      (cfg.links.map copyLink) hres
    simp [runIsOk, runEffect, hrs]

/-- Witness for the amended claim C2. -/
theorem unsupported_link_distance_not_rejected_witness :
    resolveLinkDistance cfgC2.linkDistance = none ∧
      runIsOk cfgC2 initHookState = true :=
  unsupported_link_distance_not_rejected cfgC2 initHookState rfl (by decide)

/-- Claim C3: the layout engine is deterministic; two runs of the
engine from the same configuration and prior state produce the same
output state, and in particular identical final positions for every
node. -/
theorem layout_engine_deterministic (cfg : NetworkConfig) (st : HookState)
    (o1 o2 : HookState) (h1 : EngineRun cfg st o1) (h2 : EngineRun cfg st o2) :
    o1 = o2 := by
  cases h1 with
  | run r1 f1 hres1 hsteps1 =>
    cases h2 with
    | run r2 f2 hres2 hsteps2 =>
      obtain rfl : r1 = r2 := Except.ok.inj (hres1.symm.trans hres2)
      have e1 := steps_eq_simulateN hsteps1
      have e2 := steps_eq_simulateN hsteps2
      rw [e1, e2]

/-- Witness for claim C3: two concrete engine runs on the fixture
configuration coincide. -/
theorem layout_engine_deterministic_witness :
    finishState initHookState resolvedC3
        (simulateN (mkForceModel cfgC3 resolvedC3) cfgC3.iterations
          (initSimState cfgC3)) =
      finishState initHookState resolvedC3
        (simulateN (mkForceModel cfgC3 resolvedC3) cfgC3.iterations
          (initSimState cfgC3)) :=
  layout_engine_deterministic cfgC3 initHookState _ _
    (EngineRun.run resolvedC3 _ (by rfl)
      (steps_simulateN (mkForceModel cfgC3 resolvedC3) cfgC3.iterations
        (initSimState cfgC3)))
    (EngineRun.run resolvedC3 _ (by rfl)
      (steps_simulateN (mkForceModel cfgC3 resolvedC3) cfgC3.iterations
        (initSimState cfgC3)))

/-- Claim C4: before the first run completes the hook exposes the
`null` sentinel for both computed nodes and computed links, and that
sentinel is distinct from an empty sequence. -/
theorem initial_render_sentinel (cfg : NetworkConfig) :
    render cfg initHookState = (none, none) ∧
      (none : Option (List NetworkComputedNode)) ≠ some [] := by
  constructor
  · rfl
  · exact fun h => Option.noConfusion h

/-- Claim C5: every link stored by a completed run carries as
`previousSource` (resp. `previousTarget`) the prior run's node whose id
matches the link's resolved source (resp. target) id, which is absent
on the first run because the prior node set is the `null` sentinel. -/
theorem previous_frame_references (cfg : NetworkConfig) (st st2 : HookState)
    (ls : List RunLink) (l : RunLink)
    (hrun : runEffect cfg st = Except.ok st2)
    (hls : st2.currentLinks = some ls) (hl : l ∈ ls) :
    l.previousSource = prevLookup st.currentNodes l.sourceId ∧
      l.previousTarget = prevLookup st.currentNodes l.targetId := by
  unfold runEffect at hrun
  cases hres : resolveLinks (initNodes cfg) (cfg.links.map copyLink) with
  | error e =>
    rw [hres] at hrun
    exact Except.noConfusion hrun
  | ok resolved =>
    rw [hres] at hrun
    injection hrun with h2
    subst h2
    simp only [finishState] at hls
    injection hls with h3
    subst h3
    obtain ⟨r, hr, rfl⟩ := List.mem_map.mp hl
    exact ⟨rfl, rfl⟩

/-- Witness for claim C5: a second run from a prior state holding node
`a` attaches that node as `previousSource` and leaves `previousTarget`
absent. -/
theorem previous_frame_references_witness :
    lC5.previousSource = prevLookup stC5.currentNodes lC5.sourceId ∧
      lC5.previousTarget = prevLookup stC5.currentNodes lC5.targetId :=
  previous_frame_references baseConfig stC5 runC5 lsC5 lC5 (by rfl) (by rfl)
    (by decide)

/-- Claim C6: a constant `nodeColor` yields that exact color on every
computed node regardless of node content, and a function yields exactly
that function's output per node. -/
theorem node_color_accessor (c : Color) (f : SimNode → Color)
    (bw : NodeBorderWidthInput) (bc : SimNode → Color) (ns : List SimNode) :
    (styleNodes (NodeColorInput.const c) bw bc ns).map (fun n => n.color) =
        ns.map (fun _ => c) ∧
      (styleNodes (NodeColorInput.fn f) bw bc ns).map (fun n => n.color) =
        ns.map f := by
  constructor
  · induction ns with
    | nil => rfl
    | cons a t ih =>
      show (styleNode (NodeColorInput.const c) bw bc a).color ::
          (styleNodes (NodeColorInput.const c) bw bc t).map (fun n => n.color) =
        c :: t.map (fun _ => c)
      rw [ih]
      rfl
  · induction ns with
    | nil => rfl
    | cons a t ih =>
      show (styleNode (NodeColorInput.fn f) bw bc a).color ::
          (styleNodes (NodeColorInput.fn f) bw bc t).map (fun n => n.color) =
        f a :: t.map f
      rw [ih]
      rfl

/-- Claim C7, counterexample to the claim as stated: passing a
function as `nodeBorderWidth` does not make the computed node's
`borderWidth` equal the function's output (the value `3` here); the
raw function value is stored instead. -/
theorem node_border_width_function_unapplied :
    (styleNodes (NodeColorInput.const colorA) bwFn (fun _ => colorB)
      [nodeA]).map (fun n => n.borderWidth) ≠ [NodeBorderWidthInput.num 3] := by
  intro h
  simp [styleNodes, styleNode, bwFn] at h

/-- Claim C7, amended: the `nodeBorderWidth` configuration value is
copied verbatim onto every computed node's `borderWidth` without being
normalized or invoked, so a constant takes effect uniformly but a
function is never applied to the node, unlike the color and thickness
accessors. -/
theorem node_border_width_raw (color : NodeColorInput)
    (bw : NodeBorderWidthInput) (bc : SimNode → Color) (ns : List SimNode) :
    (styleNodes color bw bc ns).map (fun n => n.borderWidth) =
      ns.map fun _ => bw := by
  induction ns with
  | nil => rfl
  | cons a t ih =>
    show (styleNode color bw bc a).borderWidth ::
        (styleNodes color bw bc t).map (fun n => n.borderWidth) =
      bw :: t.map fun _ => bw
    rw [ih]
    rfl

/-- Claim C8: the styling pipeline produces new records that project
back exactly onto the layout engine's output, so the engine records are
not altered and every styled node keeps the engine-produced `x` and `y`
unchanged. -/
theorem styling_preserves_geometry (color : NodeColorInput)
    (bw : NodeBorderWidthInput) (bc : SimNode → Color)
    (th : LinkThicknessInput) (lc : RunLink → Color)
    (ns : List SimNode) (ls : List RunLink) :
    (styleNodes color bw bc ns).map toSimNode = ns ∧
      (styleLinks th lc ls).map toRunLink = ls ∧
      (styleNodes color bw bc ns).map (fun n => (n.x, n.y)) =
        ns.map (fun n => (n.x, n.y)) := by
  refine ⟨?_, ?_, ?_⟩
  · induction ns with
    | nil => rfl
    | cons a t ih =>
      show toSimNode (styleNode color bw bc a) ::
        (styleNodes color bw bc t).map toSimNode = a :: t
      rw [ih]
      rfl
  · induction ls with
    | nil => rfl
    | cons a t ih =>
      show toRunLink (styleLink th lc a) ::
        (styleLinks th lc t).map toRunLink = a :: t
      rw [ih]
      rfl
  · induction ns with
    | nil => rfl
    | cons a t ih =>
      show ((styleNode color bw bc a).x, (styleNode color bw bc a).y) ::
          (styleNodes color bw bc t).map (fun n => (n.x, n.y)) =
        (a.x, a.y) :: t.map (fun n => (n.x, n.y))
      rw [ih]
      rfl

/-- Claim C9: the charge force is built with strength equal to the
negated repulsivity, and every pairwise charge contribution uses a
squared distance clamped between the squares of `distanceMin` and
`distanceMax`, with pairs beyond `distanceMax` contributing nothing. -/
theorem charge_strength_and_clamps (cfg : NetworkConfig) (d2 u dbig : ℚ)
    (hmin : 0 ≤ cfg.distanceMin) (hminmax : cfg.distanceMin ≤ cfg.distanceMax)
    (hu : chargeUsedDist2 (computeForces cfg).charge d2 = some u)
    (hbig : cfg.distanceMax * cfg.distanceMax < dbig) :
    (computeForces cfg).charge.strength = -cfg.repulsivity ∧
      cfg.distanceMin * cfg.distanceMin ≤ u ∧
      u ≤ cfg.distanceMax * cfg.distanceMax ∧
      chargeUsedDist2 (computeForces cfg).charge dbig = none := by
  refine ⟨rfl, ?_, ?_, ?_⟩
  · unfold chargeUsedDist2 at hu
    split at hu
    · exact Option.noConfusion hu
    · injection hu with h4
      rw [← h4]
      exact le_max_right _ _
  · unfold chargeUsedDist2 at hu
    split at hu
    · exact Option.noConfusion hu
    · next hcond =>
      injection hu with h4
      rw [← h4]
      exact max_le (not_lt.mp hcond) (mul_self_le_mul_self hmin hminmax)
  · unfold chargeUsedDist2
    have hfield : (computeForces cfg).charge.distanceMax = cfg.distanceMax :=
      rfl
    rw [hfield, if_pos hbig]

/-- Witness for claim C9: with `distanceMin = 1`, `distanceMax = 10`
and `repulsivity = 2`, a coincident pair uses the clamped squared
distance `1` and a pair at squared distance `101` contributes
nothing. -/
theorem charge_strength_and_clamps_witness :
    (computeForces cfgC9).charge.strength = -cfgC9.repulsivity ∧
      cfgC9.distanceMin * cfgC9.distanceMin ≤ 1 ∧
      (1 : ℚ) ≤ cfgC9.distanceMax * cfgC9.distanceMax ∧
      chargeUsedDist2 (computeForces cfgC9).charge 101 = none :=
  charge_strength_and_clamps cfgC9 0 1 101
    (by norm_num [cfgC9, baseConfig])
    (by norm_num [cfgC9, baseConfig])
    (by norm_num [chargeUsedDist2, computeForces, cfgC9, baseConfig, max_def])
    (by norm_num [cfgC9, baseConfig])

/-- Claim C10: the derived link id joins source and target ids with a
dot, and only applies when the caller's link carries no id of its own;
a caller-supplied id overrides the derived one, and the styling step
passes the id through unchanged to the computed link. -/
theorem derived_link_id (l : InputLink) (th : LinkThicknessInput)
    (lc : RunLink → Color) (rl : RunLink) :
    (copyLink l).id = l.ownId.getD (l.source ++ "." ++ l.target) ∧
      (styleLink th lc rl).id = rl.id := by
  constructor
  · cases h : l.ownId with
    | none => simp [copyLink, h]
    | some i => simp [copyLink, h]
  · rfl

end NivoNetwork
